import Mathlib

/-!
# Verification of the `jaxley-mech` channel models

Shallow embedding of the two source modules of the repository:

* `src/jaxley_mech/channels/benison.py` — Leak, Na, Kdr, CaL and CaN
  channels for cat retinal ganglion cells (Benison et al. 2001), each a
  set of voltage-dependent rate functions (`alpha`, `beta` per gate), an
  `init_state` steady-state initializer, an exponential-Euler
  `update_states`, and a `compute_current` readout.
* `src/jaxley_mech/channels/chan24.py` — the `Phototransduction`
  cascade channel (five biochemical state variables advanced by explicit
  forward Euler, plus a stimulus input).

Python floats are modelled as real numbers (`ℝ`), `jnp.exp` as
`Real.exp`, and the float power `**` between two parameters as real
(`rpow`) power.  Python dictionaries of state variables are modelled as
association lists `List (String × ℝ)`; a key lookup that would raise
`KeyError` in Python is a `none` result of `List.lookup`, so the
dictionary-consuming `update_states` of the phototransduction channel
returns an `Option`.  Parameter dictionaries with a fixed set of keys are
modelled as records.
-/

open Real

/-- Modelled from the spec: the exponential-Euler gate integrator
`solve_gate_exponential` is imported from the external host package
(`jaxley.solver_gate`) and is not part of this repository; spec §4.2
gives its closed form: the update returns
`x_inf + (x - x_inf) * exp(-dt*(alpha+beta))` with
`x_inf = alpha/(alpha+beta)`. -/
noncomputable def solve_gate_exponential (x dt alpha beta : ℝ) : ℝ :=
  alpha / (alpha + beta) + (x - alpha / (alpha + beta)) * Real.exp (-dt * (alpha + beta))

namespace Leak

/-- `Leak.compute_current`: `gl * 1000 * (v - el)` (the `*1000` converts
Siemens to milli-Siemens), with the parameters `{name}_gl` and
`{name}_el` passed in as scalars. -/
def compute_current (gl el v : ℝ) : ℝ :=
  (gl * 1000) * (v - el)

/-- Default value of the `{name}_gl` parameter (S/cm²). -/
def gl_default : ℝ := 0.25e-9

/-- Default value of the `{name}_el` parameter (mV). -/
def el_default : ℝ := -60.0

end Leak

namespace Na

/-- `Na.m_gate`: activation (`alpha`) and deactivation (`beta`) rates. -/
noncomputable def m_gate (e : ℝ) : ℝ × ℝ :=
  (0.5 * (e + 29) / (1 - Real.exp (-0.18 * (e + 29))),
   6.0 * Real.exp (-(e + 45.0) / 15.0))

/-- `Na.h_gate`. -/
noncomputable def h_gate (e : ℝ) : ℝ × ℝ :=
  (0.15 * Real.exp (-(e + 47.0) / 20.0),
   2.8 / (1 + Real.exp (-0.1 * (e + 20.0))))

/-- `Na.update_states` on the state `(m, h)`. -/
noncomputable def update_states (u : ℝ × ℝ) (dt v : ℝ) : ℝ × ℝ :=
  (solve_gate_exponential u.1 dt (m_gate v).1 (m_gate v).2,
   solve_gate_exponential u.2 dt (h_gate v).1 (h_gate v).2)

/-- `Na.init_state`: each gate is set to `alpha / (alpha + beta)`. -/
noncomputable def init_state (v : ℝ) : ℝ × ℝ :=
  ((m_gate v).1 / ((m_gate v).1 + (m_gate v).2),
   (h_gate v).1 / ((h_gate v).1 + (h_gate v).2))

/-- `Na.compute_current`: `gNa * m³ * h * 1000 * (v - vNa)`. -/
def compute_current (gNa vNa ms hs v : ℝ) : ℝ :=
  (gNa * ms ^ (3 : ℕ) * hs * 1000) * (v - vNa)

end Na

namespace Kdr

/-- `Kdr.m_gate`.  Note the numerator of `alpha` vanishes at `e = -30`
while the exponential in its denominator vanishes at `e = 0`. -/
noncomputable def m_gate (e : ℝ) : ℝ × ℝ :=
  (0.0065 * (e + 30) / (1 - Real.exp (-0.3 * e)),
   0.083 * Real.exp ((e + 15) / 15))

/-- `Kdr.update_states` on the single gate `m`. -/
noncomputable def update_states (ms dt v : ℝ) : ℝ :=
  solve_gate_exponential ms dt (m_gate v).1 (m_gate v).2

/-- `Kdr.init_state`. -/
noncomputable def init_state (v : ℝ) : ℝ :=
  (m_gate v).1 / ((m_gate v).1 + (m_gate v).2)

/-- `Kdr.compute_current`: `gKdr * m³ * 1000 * (v - vK)`. -/
def compute_current (gKdr vK ms v : ℝ) : ℝ :=
  (gKdr * ms ^ (3 : ℕ) * 1000) * (v - vK)

end Kdr

namespace CaL

/-- `CaL.m_gate`. -/
noncomputable def m_gate (e : ℝ) : ℝ × ℝ :=
  (0.061 * (e - 3.0) / (1 - Real.exp (-(e - 3.0) / 12.5)),
   0.058 * Real.exp (-(e - 10.0) / 15.0))

/-- `CaL.update_states` on the single gate `m`. -/
noncomputable def update_states (ms dt v : ℝ) : ℝ :=
  solve_gate_exponential ms dt (m_gate v).1 (m_gate v).2

/-- `CaL.init_state`. -/
noncomputable def init_state (v : ℝ) : ℝ :=
  (m_gate v).1 / ((m_gate v).1 + (m_gate v).2)

/-- `CaL.compute_current`: `gCaL * m² * 1000 * (v - vCa)`. -/
def compute_current (gCaL vCa ms v : ℝ) : ℝ :=
  (gCaL * ms ^ (2 : ℕ) * 1000) * (v - vCa)

end CaL

namespace CaN

/-- `CaN.m_gate`. -/
noncomputable def m_gate (e : ℝ) : ℝ × ℝ :=
  (0.1 * (e - 20) / (1 - Real.exp (-0.1 * (e - 20))),
   0.4 * Real.exp (-(e + 25.0) / 18.0))

/-- `CaN.h_gate`. -/
noncomputable def h_gate (e : ℝ) : ℝ × ℝ :=
  (0.01 * Real.exp (-(e + 50.0) / 10.0),
   0.1 / (1 + Real.exp (-(e + 17.0) / 17)))

/-- `CaN.update_states` on the state `(m, h)`. -/
noncomputable def update_states (u : ℝ × ℝ) (dt v : ℝ) : ℝ × ℝ :=
  (solve_gate_exponential u.1 dt (m_gate v).1 (m_gate v).2,
   solve_gate_exponential u.2 dt (h_gate v).1 (h_gate v).2)

/-- `CaN.init_state`. -/
noncomputable def init_state (v : ℝ) : ℝ × ℝ :=
  ((m_gate v).1 / ((m_gate v).1 + (m_gate v).2),
   (h_gate v).1 / ((h_gate v).1 + (h_gate v).2))

/-- `CaN.compute_current`: `gCaN * m² * h * 1000 * (v - vCa)`. -/
def compute_current (gCaN vCa ms hs v : ℝ) : ℝ :=
  (gCaN * ms ^ (2 : ℕ) * hs * 1000) * (v - vCa)

end CaN

namespace Leak

/-- Keys of `Leak.channel_params` for an instance named `name`. -/
def channel_params_keys (name : String) : List String :=
  [name ++ "_gl", name ++ "_el"]

/-- Keys of `Leak.channel_states` (empty). -/
def channel_states_keys (_name : String) : List String := []

end Leak

namespace Na

/-- Keys of `Na.channel_params` for an instance named `name`. -/
def channel_params_keys (name : String) : List String :=
  [name ++ "_gNa", name ++ "_vNa"]

/-- Keys of `Na.channel_states` for an instance named `name`. -/
def channel_states_keys (name : String) : List String :=
  [name ++ "_m", name ++ "_h"]

end Na

namespace Kdr

/-- Keys of `Kdr.channel_params` for an instance named `name`.  Note
the reversal potential is stored under the bare key `"vK"`, without the
instance-name prefix. -/
def channel_params_keys (name : String) : List String :=
  [name ++ "_gKdr", "vK"]

/-- Keys of `Kdr.channel_states` for an instance named `name`. -/
def channel_states_keys (name : String) : List String :=
  [name ++ "_m"]

end Kdr

namespace CaL

/-- Keys of `CaL.channel_params` for an instance named `name`.  The
reversal potential is stored under the bare key `"vCa"`. -/
def channel_params_keys (name : String) : List String :=
  [name ++ "_gCaL", "vCa"]

/-- Keys of `CaL.channel_states` for an instance named `name`. -/
def channel_states_keys (name : String) : List String :=
  [name ++ "_m"]

end CaL

namespace CaN

/-- Keys of `CaN.channel_params` for an instance named `name`.  The
reversal potential is stored under the bare key `"vCa"`. -/
def channel_params_keys (name : String) : List String :=
  [name ++ "_gCaN", "vCa"]

/-- Keys of `CaN.channel_states` for an instance named `name`. -/
def channel_states_keys (name : String) : List String :=
  [name ++ "_m", name ++ "_h"]

end CaN

namespace Phototransduction

/-- The fixed key set of the `Phototransduction` parameter dictionary,
as a record (defaults in `default_params`). -/
structure Params where
  sigma : ℝ
  gamma : ℝ
  phi : ℝ
  eta : ℝ
  G_dark : ℝ
  k : ℝ
  h : ℝ
  Ca_dark : ℝ
  beta : ℝ
  n : ℝ
  q : ℝ
  S_max : ℝ
  K_GC : ℝ
  m : ℝ
  I_dark : ℝ

/-- The default `channel_params` of `Phototransduction.__init__`. -/
noncomputable def default_params : Params :=
  { sigma := 22, gamma := 10, phi := 22, eta := 2000, G_dark := 20,
    k := 0.01, h := 4, Ca_dark := 1, beta := 9, n := 3, q := 1.0,
    S_max := 30909, K_GC := 0.5, m := 4, I_dark := 20 ^ (3 : ℕ) * 0.01 }

/-- Keys of `Phototransduction.channel_params` for an instance named
`name` (all carry the instance-name prefix). -/
def channel_params_keys (name : String) : List String :=
  [name ++ "_sigma", name ++ "_gamma", name ++ "_phi", name ++ "_eta",
   name ++ "_G_dark", name ++ "_k", name ++ "_h", name ++ "_Ca_dark",
   name ++ "_beta", name ++ "_n", name ++ "_q", name ++ "_S_max",
   name ++ "_K_GC", name ++ "_m", name ++ "_I_dark"]

/-- Keys of `Phototransduction.channel_states` for an instance named
`name`. -/
def channel_states_keys (name : String) : List String :=
  [name ++ "_R", name ++ "_P", name ++ "_G", name ++ "_S", name ++ "_C",
   name ++ "_Stim"]

/-- The default `channel_states` dictionary of
`Phototransduction.__init__`, at the default instance name
`"Phototransduction"`. -/
noncomputable def channel_states_default : List (String × ℝ) :=
  [("Phototransduction_R", 0.0),
   ("Phototransduction_P", 90.0),
   ("Phototransduction_G", 1),
   ("Phototransduction_S", 1),
   ("Phototransduction_C", 0.336),
   ("Phototransduction_Stim", 0.0)]

/-- `Phototransduction.init_state` (dark steady state), at the default
instance name. -/
noncomputable def init_state (p : Params) : List (String × ℝ) :=
  [("Phototransduction_R", 0.0),
   ("Phototransduction_P", p.eta / p.phi),
   ("Phototransduction_G", p.G_dark),
   ("Phototransduction_S", p.G_dark * p.eta / p.phi),
   ("Phototransduction_C", p.Ca_dark),
   ("Phototransduction_Stim", 0.0)]

/-- `Phototransduction.update_states`, at the default instance name.
Dictionary reads `states[key]` become `List.lookup`; a read of a
missing key (a Python `KeyError`) makes the whole result `none`.  The
supplied `q` and `S_max` parameters are read and then overwritten by
recomputed values, as in the source; the dictionary entry `iPhoto`
(`self.current_name`) is read into `I`, which is overwritten before
use. -/
noncomputable def update_states (p : Params) (states : List (String × ℝ))
    (dt : ℝ) : Option (List (String × ℝ)) := do
  let dt := dt / 1000
  let gamma := p.gamma
  let sigma := p.sigma
  let phi := p.phi
  let eta := p.eta
  let q := p.q
  let beta := p.beta
  let S_max := p.S_max
  let K_GC := p.K_GC
  let m := p.m
  let k := p.k
  let n := p.n
  let I_dark := p.I_dark
  let C_dark := p.Ca_dark
  let G_dark := p.G_dark
  let q := beta * C_dark / I_dark
  let S_max := eta / phi * G_dark * (1 + (C_dark / K_GC) ^ m)
  let Stim ← states.lookup "Phototransduction_Stim"
  let P ← states.lookup "Phototransduction_P"
  let R ← states.lookup "Phototransduction_R"
  let G ← states.lookup "Phototransduction_G"
  let S ← states.lookup "Phototransduction_S"
  let C ← states.lookup "Phototransduction_C"
  let I ← states.lookup "iPhoto"
  let dR_dt := gamma * Stim - sigma * R
  let dP_dt := R - phi * P + eta
  let dG_dt := S - P * G
  let I := k * G ^ n
  let dC_dt := q * I - beta * C
  let S_new := S_max / (1 + (C / K_GC) ^ m)
  let R_new := R + dR_dt * dt
  let P_new := P + dP_dt * dt
  let G_new := G + dG_dt * dt
  let C_new := C + dC_dt * dt
  return [("Phototransduction_R", R_new),
          ("Phototransduction_P", P_new),
          ("Phototransduction_G", G_new),
          ("Phototransduction_S", S_new),
          ("Phototransduction_C", C_new),
          ("Phototransduction_Stim", Stim)]

/-- `Phototransduction.compute_current`: `I = -k * G^n`. -/
noncomputable def compute_current (p : Params) (G : ℝ) : ℝ :=
  -p.k * G ^ p.n

/-- The `channel_states` dictionary extended with an `"iPhoto"` entry,
used as a test state. -/
noncomputable def test_state : List (String × ℝ) :=
  ("iPhoto", 0) :: channel_states_default

end Phototransduction

/-- The state keys declared by the five Benison channels for an
instance named `name`. -/
def benison_states_keys (name : String) : List String :=
  Leak.channel_states_keys name ++ Na.channel_states_keys name ++
    Kdr.channel_states_keys name ++ CaL.channel_states_keys name ++
    CaN.channel_states_keys name

/-- A gate already at `alpha / (alpha + beta)` is left unchanged by the
exponential-Euler step, whatever `dt`. -/
theorem solve_gate_fixed (alpha beta dt : ℝ) :
    solve_gate_exponential (alpha / (alpha + beta)) dt alpha beta =
      alpha / (alpha + beta) := by
  unfold solve_gate_exponential
  ring

/-- Starting from gate value `0`, one exponential-Euler step with a
negative `alpha` and positive `alpha + beta` produces a negative gate
value. -/
theorem solve_gate_from_zero_neg (alpha beta dt : ℝ) (ha : alpha < 0)
    (hab : 0 < alpha + beta) (hdt : 0 < dt) :
    solve_gate_exponential 0 dt alpha beta < 0 := by
  unfold solve_gate_exponential
  have hinf : alpha / (alpha + beta) < 0 := div_neg_of_neg_of_pos ha hab
  have hexp1 : Real.exp (-dt * (alpha + beta)) < 1 := by
    rw [Real.exp_lt_one_iff]
    nlinarith
  have hexp0 : 0 < Real.exp (-dt * (alpha + beta)) := Real.exp_pos _
  nlinarith [mul_neg_of_neg_of_pos hinf
    (by linarith : (0:ℝ) < 1 - Real.exp (-dt * (alpha + beta)))]

/-- C5 counterexample: with default parameters (`gl = 0.25e-9`,
`el = -60`), `Leak.compute_current` at `V = 0` returns
`0.25e-9 * 1000 * 60 = 1.5e-5 = 0.000015`, not the claimed `0.015`. -/
theorem leak_current_at_zero_not_claimed_value :
    Leak.compute_current Leak.gl_default Leak.el_default 0 = 0.000015 ∧
    (0.000015 : ℝ) ≠ 0.015 := by
  constructor
  · unfold Leak.compute_current Leak.gl_default Leak.el_default
    norm_num
  · norm_num

/-- C5 (amended): `Leak.compute_current` with the default parameters
returns exactly `0` at `V = -60` and `0.25e-9 * 1000 * (0 - (-60)) =
1.5e-5` at `V = 0`. -/
theorem leak_current_defaults :
    Leak.compute_current Leak.gl_default Leak.el_default (-60) = 0 ∧
    Leak.compute_current Leak.gl_default Leak.el_default 0 = 1.5e-5 := by
  constructor
  · unfold Leak.compute_current Leak.el_default
    ring
  · unfold Leak.compute_current Leak.gl_default Leak.el_default
    norm_num

/-- C7: for every simple gated channel (Na, Kdr, CaL, CaN), for any gate
state and any conductance parameter, `compute_current` evaluated at a
voltage equal to the channel's reversal-potential parameter returns
exactly zero. -/
theorem gated_current_zero_at_reversal :
    (∀ gNa vNa ms hs : ℝ, Na.compute_current gNa vNa ms hs vNa = 0) ∧
    (∀ gKdr vK ms : ℝ, Kdr.compute_current gKdr vK ms vK = 0) ∧
    (∀ gCaL vCa ms : ℝ, CaL.compute_current gCaL vCa ms vCa = 0) ∧
    (∀ gCaN vCa ms hs : ℝ, CaN.compute_current gCaN vCa ms hs vCa = 0) := by
  refine ⟨fun gNa vNa ms hs => ?_, fun gKdr vK ms => ?_,
          fun gCaL vCa ms => ?_, fun gCaN vCa ms hs => ?_⟩ <;>
    simp [Na.compute_current, Kdr.compute_current, CaL.compute_current,
      CaN.compute_current]

/-- C1: for every gated channel (Na, Kdr, CaL, CaN) and every voltage
`v` at which the summed rates of each of its gates are nonzero,
`init_state v` equals `alpha/(alpha+beta)` gate-wise, and that state is
a fixed point of `update_states` at the same voltage for every
`dt ≥ 0`. -/
theorem gated_init_state_fixed_point :
    (∀ v dt : ℝ, 0 ≤ dt →
      (Na.m_gate v).1 + (Na.m_gate v).2 ≠ 0 →
      (Na.h_gate v).1 + (Na.h_gate v).2 ≠ 0 →
      Na.init_state v =
          ((Na.m_gate v).1 / ((Na.m_gate v).1 + (Na.m_gate v).2),
           (Na.h_gate v).1 / ((Na.h_gate v).1 + (Na.h_gate v).2)) ∧
        Na.update_states (Na.init_state v) dt v = Na.init_state v) ∧
    (∀ v dt : ℝ, 0 ≤ dt →
      (Kdr.m_gate v).1 + (Kdr.m_gate v).2 ≠ 0 →
      Kdr.init_state v =
          (Kdr.m_gate v).1 / ((Kdr.m_gate v).1 + (Kdr.m_gate v).2) ∧
        Kdr.update_states (Kdr.init_state v) dt v = Kdr.init_state v) ∧
    (∀ v dt : ℝ, 0 ≤ dt →
      (CaL.m_gate v).1 + (CaL.m_gate v).2 ≠ 0 →
      CaL.init_state v =
          (CaL.m_gate v).1 / ((CaL.m_gate v).1 + (CaL.m_gate v).2) ∧
        CaL.update_states (CaL.init_state v) dt v = CaL.init_state v) ∧
    (∀ v dt : ℝ, 0 ≤ dt →
      (CaN.m_gate v).1 + (CaN.m_gate v).2 ≠ 0 →
      (CaN.h_gate v).1 + (CaN.h_gate v).2 ≠ 0 →
      CaN.init_state v =
          ((CaN.m_gate v).1 / ((CaN.m_gate v).1 + (CaN.m_gate v).2),
           (CaN.h_gate v).1 / ((CaN.h_gate v).1 + (CaN.h_gate v).2)) ∧
        CaN.update_states (CaN.init_state v) dt v = CaN.init_state v) := by
  refine ⟨fun v dt _ _ _ => ⟨rfl, ?_⟩, fun v dt _ _ => ⟨rfl, ?_⟩,
          fun v dt _ _ => ⟨rfl, ?_⟩, fun v dt _ _ _ => ⟨rfl, ?_⟩⟩ <;>
    simp [Na.update_states, Na.init_state, Kdr.update_states, Kdr.init_state,
      CaL.update_states, CaL.init_state, CaN.update_states, CaN.init_state,
      solve_gate_fixed]

/-- Witness for C1 at `v = 10`, `dt = 1`: all rate sums are nonzero
there, and each channel's initialized state is left unchanged by
`update_states`. -/
theorem gated_init_state_fixed_point_witness :
    Na.update_states (Na.init_state 10) 1 10 = Na.init_state 10 ∧
    Kdr.update_states (Kdr.init_state 10) 1 10 = Kdr.init_state 10 ∧
    CaL.update_states (CaL.init_state 10) 1 10 = CaL.init_state 10 ∧
    CaN.update_states (CaN.init_state 10) 1 10 = CaN.init_state 10 := by
  have hNa_m : (Na.m_gate 10).1 + (Na.m_gate 10).2 ≠ 0 := by
    have e1 : Real.exp (-0.18 * ((10:ℝ) + 29)) < 1 := by
      rw [Real.exp_lt_one_iff]; norm_num
    have t1 : 0 < 0.5 * ((10:ℝ) + 29) / (1 - Real.exp (-0.18 * (10 + 29))) :=
      div_pos (by norm_num) (by linarith)
    have t2 : 0 < 6.0 * Real.exp (-((10:ℝ) + 45.0) / 15.0) := by positivity
    simp only [Na.m_gate]
    exact ne_of_gt (by linarith)
  have hNa_h : (Na.h_gate 10).1 + (Na.h_gate 10).2 ≠ 0 := by
    simp only [Na.h_gate]
    positivity
  have hKdr_m : (Kdr.m_gate 10).1 + (Kdr.m_gate 10).2 ≠ 0 := by
    have e1 : Real.exp (-0.3 * (10:ℝ)) < 1 := by
      rw [Real.exp_lt_one_iff]; norm_num
    have t1 : 0 < 0.0065 * ((10:ℝ) + 30) / (1 - Real.exp (-0.3 * 10)) :=
      div_pos (by norm_num) (by linarith)
    have t2 : 0 < 0.083 * Real.exp (((10:ℝ) + 15) / 15) := by positivity
    simp only [Kdr.m_gate]
    exact ne_of_gt (by linarith)
  have hCaL_m : (CaL.m_gate 10).1 + (CaL.m_gate 10).2 ≠ 0 := by
    have e1 : Real.exp (-((10:ℝ) - 3.0) / 12.5) < 1 := by
      rw [Real.exp_lt_one_iff]; norm_num
    have t1 : 0 < 0.061 * ((10:ℝ) - 3.0) / (1 - Real.exp (-((10:ℝ) - 3.0) / 12.5)) :=
      div_pos (by norm_num) (by linarith)
    have t2 : 0 < 0.058 * Real.exp (-((10:ℝ) - 10.0) / 15.0) := by positivity
    simp only [CaL.m_gate]
    exact ne_of_gt (by linarith)
  have hCaN_m : (CaN.m_gate 10).1 + (CaN.m_gate 10).2 ≠ 0 := by
    have e1 : (1:ℝ) < Real.exp (-0.1 * ((10:ℝ) - 20)) := by
      rw [Real.one_lt_exp_iff]; norm_num
    have t1 : 0 < 0.1 * ((10:ℝ) - 20) / (1 - Real.exp (-0.1 * ((10:ℝ) - 20))) := by
      apply div_pos_of_neg_of_neg (by norm_num) (by linarith)
    have t2 : 0 < 0.4 * Real.exp (-((10:ℝ) + 25.0) / 18.0) := by positivity
    simp only [CaN.m_gate]
    exact ne_of_gt (by linarith)
  have hCaN_h : (CaN.h_gate 10).1 + (CaN.h_gate 10).2 ≠ 0 := by
    simp only [CaN.h_gate]
    positivity
  exact ⟨(gated_init_state_fixed_point.1 10 1 (by norm_num) hNa_m hNa_h).2,
         (gated_init_state_fixed_point.2.1 10 1 (by norm_num) hKdr_m).2,
         (gated_init_state_fixed_point.2.2.1 10 1 (by norm_num) hCaL_m).2,
         (gated_init_state_fixed_point.2.2.2 10 1 (by norm_num) hCaN_m hCaN_h).2⟩

/-- C3: the rate functions are written as raw divisions, and at the
singular voltages named by the claim the denominator `1 - exp(...)`
vanishes exactly (`V = -29` for `Na.m_gate`, `V = 0` for `Kdr.m_gate`,
`V = 3` for `CaL.m_gate`, `V = 20` for `CaN.m_gate`).  For `Kdr.m_gate`
at `V = 0` the numerator `0.0065 * 30` is nonzero, so no real number
`alpha` satisfies `alpha * denominator = numerator` there: the raw
division divides a nonzero number by zero (a float infinity) instead of
returning a finite limiting value. -/
theorem rate_singularities_raw_division :
    (1 - Real.exp (-0.18 * ((-29 : ℝ) + 29)) = 0) ∧
    (1 - Real.exp (-0.3 * (0 : ℝ)) = 0) ∧
    (1 - Real.exp (-((3 : ℝ) - 3.0) / 12.5) = 0) ∧
    (1 - Real.exp (-0.1 * ((20 : ℝ) - 20)) = 0) ∧
    0.0065 * ((0 : ℝ) + 30) ≠ 0 ∧
    (Kdr.m_gate 0).1 * (1 - Real.exp (-0.3 * (0 : ℝ))) ≠ 0.0065 * ((0 : ℝ) + 30) := by
  refine ⟨by norm_num, by norm_num, by norm_num, by norm_num, by norm_num, ?_⟩
  norm_num [Kdr.m_gate]

/-- C9 is violated at the Kdr channel: at `V = -15` the `Kdr.m_gate`
rate `alpha = 0.0065 * 15 / (1 - exp(4.5))` is negative (its numerator
vanishes at `V = -30` but the exponential in its denominator vanishes at
`V = 0`), so one `update_states` step from the in-range gate value `0`
with `dt = 1 ≥ 0` returns a negative gate value, leaving `[0, 1]`. -/
theorem kdr_gate_escapes_unit_interval :
    (0:ℝ) ≤ 0 ∧ (0:ℝ) ≤ 1 ∧ Kdr.update_states 0 1 (-15) < 0 := by
  refine ⟨le_refl 0, by norm_num, ?_⟩
  have hE : (2.7:ℝ) < Real.exp (-0.3 * (-15 : ℝ)) := by
    have h1 : Real.exp 1 ≤ Real.exp (-0.3 * (-15 : ℝ)) :=
      Real.exp_le_exp.mpr (by norm_num)
    linarith [Real.exp_one_gt_d9]
  have hb : ((-15 : ℝ) + 15) / 15 = 0 := by norm_num
  simp only [Kdr.update_states]
  apply solve_gate_from_zero_neg _ _ _ ?_ ?_ (by norm_num)
  · simp only [Kdr.m_gate]
    exact div_neg_of_pos_of_neg (by norm_num) (by linarith)
  · simp only [Kdr.m_gate, hb, Real.exp_zero]
    have hg : -0.058 < 0.0065 * ((-15 : ℝ) + 30) / (1 - Real.exp (-0.3 * (-15 : ℝ))) := by
      rw [lt_div_iff_of_neg (by linarith : 1 - Real.exp (-0.3 * (-15 : ℝ)) < 0)]
      nlinarith
    linarith

/-- Real power by a natural-number-valued real exponent is monoid power
(exponent `3`). -/
theorem rpow_nat3 (x : ℝ) : x ^ (3 : ℝ) = x ^ (3 : ℕ) := by
  rw [show (3 : ℝ) = ((3 : ℕ) : ℝ) by norm_num, Real.rpow_natCast]

/-- Real power by a natural-number-valued real exponent is monoid power
(exponent `4`). -/
theorem rpow_nat4 (x : ℝ) : x ^ (4 : ℝ) = x ^ (4 : ℕ) := by
  rw [show (4 : ℝ) = ((4 : ℕ) : ℝ) by norm_num, Real.rpow_natCast]

/-- C10: `Phototransduction.update_states` reads the `"iPhoto"` entry
(`self.current_name`), so it fails (Python `KeyError`, here `none`) on
the dictionary produced by `init_state` and on the declared
`channel_states`, neither of which has that key — even though the value
read is overwritten before use, so that on dictionaries that do carry
an `"iPhoto"` entry the result does not depend on its value. -/
theorem pt_update_requires_iphoto :
    (∀ (p : Phototransduction.Params) (dt : ℝ),
      Phototransduction.update_states p (Phototransduction.init_state p) dt = none) ∧
    (∀ (p : Phototransduction.Params) (dt : ℝ),
      Phototransduction.update_states p Phototransduction.channel_states_default dt = none) ∧
    (∀ (p : Phototransduction.Params) (s : List (String × ℝ)) (dt v1 v2 : ℝ),
      Phototransduction.update_states p (("iPhoto", v1) :: s) dt =
        Phototransduction.update_states p (("iPhoto", v2) :: s) dt) := by
  refine ⟨fun p dt => rfl, fun p dt => rfl, fun p s dt v1 v2 => ?_⟩
  simp [Phototransduction.update_states, List.lookup]

/-- C6: on the actual code, `update_states` applied to the dictionary
returned by `init_state` fails (the `"iPhoto"` read, `none` here); once
the dictionary is extended with an `"iPhoto"` entry (any value `v`),
the dark steady state of `init_state` is an exact fixed point of
`update_states` under the default parameters, for every `dt`: all five
derivatives vanish and the `S` reassignment reproduces `S`. -/
theorem pt_dark_state_fixed_point :
    (∀ dt : ℝ,
      Phototransduction.update_states Phototransduction.default_params
        (Phototransduction.init_state Phototransduction.default_params) dt = none) ∧
    (∀ dt v : ℝ,
      Phototransduction.update_states Phototransduction.default_params
          (("iPhoto", v) :: Phototransduction.init_state Phototransduction.default_params) dt =
        some (Phototransduction.init_state Phototransduction.default_params)) := by
  refine ⟨fun dt => rfl, fun dt v => ?_⟩
  simp [Phototransduction.update_states, Phototransduction.init_state,
    Phototransduction.default_params, List.lookup, rpow_nat3, rpow_nat4]
  norm_num

/-- C8: `Phototransduction.update_states` is independent of the
supplied `q` and `S_max` parameters: two parameter records that agree
on every other field produce identical results on the same state and
time step (the supplied `q` and `S_max` are overwritten by recomputed
values on every call). -/
theorem pt_update_independent_of_q_smax
    (p1 p2 : Phototransduction.Params) (s : List (String × ℝ)) (dt : ℝ)
    (h1 : p1.sigma = p2.sigma) (h2 : p1.gamma = p2.gamma)
    (h3 : p1.phi = p2.phi) (h4 : p1.eta = p2.eta)
    (h5 : p1.G_dark = p2.G_dark) (h6 : p1.k = p2.k) (h7 : p1.h = p2.h)
    (h8 : p1.Ca_dark = p2.Ca_dark) (h9 : p1.beta = p2.beta)
    (h10 : p1.n = p2.n) (h11 : p1.K_GC = p2.K_GC) (h12 : p1.m = p2.m)
    (h13 : p1.I_dark = p2.I_dark) :
    Phototransduction.update_states p1 s dt =
      Phototransduction.update_states p2 s dt := by
  cases p1
  cases p2
  simp only at h1 h2 h3 h4 h5 h6 h7 h8 h9 h10 h11 h12 h13
  subst h1 h2 h3 h4 h5 h6 h7 h8 h9 h10 h11 h12 h13
  rfl

/-- Witness for C8: overriding `q` and `S_max` in the default
parameters (to `7`) does not change the update on a concrete state. -/
theorem pt_update_independent_of_q_smax_witness :
    Phototransduction.update_states Phototransduction.default_params
        Phototransduction.test_state 1 =
      Phototransduction.update_states
        { Phototransduction.default_params with q := 7, S_max := 7 }
        Phototransduction.test_state 1 :=
  pt_update_independent_of_q_smax _ _ _ _ rfl rfl rfl rfl rfl rfl rfl rfl
    rfl rfl rfl rfl rfl

/-- C2 counterexample: at `dt = 0` an update that advanced every
variable by `value + derivative * dt_seconds` would leave them all
unchanged, but on the default `channel_states` (extended with the
`"iPhoto"` entry the code insists on reading) the returned `S` differs
from the input `S = 1`: `S` is reassigned its algebraic equilibrium
value, not Euler-advanced. -/
theorem pt_s_not_euler_advanced :
    List.lookup "Phototransduction_S" Phototransduction.test_state = some 1 ∧
    (Phototransduction.update_states Phototransduction.default_params
        Phototransduction.test_state 0).bind
      (fun l => List.lookup "Phototransduction_S" l) ≠ some 1 := by
  refine ⟨rfl, ?_⟩
  simp [Phototransduction.update_states, Phototransduction.default_params,
    Phototransduction.test_state, Phototransduction.channel_states_default,
    List.lookup, rpow_nat3, rpow_nat4]
  norm_num

/-- C2 (amended): `update_states` rescales `dt` to seconds and,
whenever the state dictionary carries all six state entries and the
`"iPhoto"` entry, returns the four variables `R`, `P`, `G`, `C`
advanced by `value + derivative * (dt/1000)` with every derivative
computed from the OLD values, while `S` is not Euler-advanced: it is
reassigned the algebraic equilibrium `S_max / (1 + (C_old/K_GC)^m)`
(with `S_max` recomputed from the other parameters).  No update reads
an already-updated value. -/
theorem pt_update_states_componentwise
    (p : Phototransduction.Params) (s : List (String × ℝ)) (dt : ℝ)
    (Stim P R G S C I : ℝ)
    (hStim : List.lookup "Phototransduction_Stim" s = some Stim)
    (hP : List.lookup "Phototransduction_P" s = some P)
    (hR : List.lookup "Phototransduction_R" s = some R)
    (hG : List.lookup "Phototransduction_G" s = some G)
    (hS : List.lookup "Phototransduction_S" s = some S)
    (hC : List.lookup "Phototransduction_C" s = some C)
    (hI : List.lookup "iPhoto" s = some I) :
    Phototransduction.update_states p s dt =
      some [("Phototransduction_R", R + (p.gamma * Stim - p.sigma * R) * (dt / 1000)),
            ("Phototransduction_P", P + (R - p.phi * P + p.eta) * (dt / 1000)),
            ("Phototransduction_G", G + (S - P * G) * (dt / 1000)),
            ("Phototransduction_S",
              p.eta / p.phi * p.G_dark * (1 + (p.Ca_dark / p.K_GC) ^ p.m) /
                (1 + (C / p.K_GC) ^ p.m)),
            ("Phototransduction_C",
              C + (p.beta * p.Ca_dark / p.I_dark * (p.k * G ^ p.n) - p.beta * C) *
                (dt / 1000)),
            ("Phototransduction_Stim", Stim)] := by
  simp [Phototransduction.update_states, hStim, hP, hR, hG, hS, hC, hI]

/-- Witness for C2 (amended) on the concrete test state (default
`channel_states` values plus an `"iPhoto"` entry) at `dt = 1`. -/
theorem pt_update_states_componentwise_witness :
    Phototransduction.update_states Phototransduction.default_params
        Phototransduction.test_state 1 =
      some [("Phototransduction_R",
              0.0 + (Phototransduction.default_params.gamma * 0.0 -
                Phototransduction.default_params.sigma * 0.0) * (1 / 1000)),
            ("Phototransduction_P",
              90.0 + (0.0 - Phototransduction.default_params.phi * 90.0 +
                Phototransduction.default_params.eta) * (1 / 1000)),
            ("Phototransduction_G", 1 + (1 - 90.0 * 1) * (1 / 1000)),
            ("Phototransduction_S",
              Phototransduction.default_params.eta / Phototransduction.default_params.phi *
                  Phototransduction.default_params.G_dark *
                  (1 + (Phototransduction.default_params.Ca_dark /
                    Phototransduction.default_params.K_GC) ^ Phototransduction.default_params.m) /
                (1 + ((0.336 : ℝ) / Phototransduction.default_params.K_GC) ^
                  Phototransduction.default_params.m)),
            ("Phototransduction_C",
              0.336 + (Phototransduction.default_params.beta *
                  Phototransduction.default_params.Ca_dark /
                  Phototransduction.default_params.I_dark *
                  (Phototransduction.default_params.k *
                    (1 : ℝ) ^ Phototransduction.default_params.n) -
                Phototransduction.default_params.beta * 0.336) * (1 / 1000)),
            ("Phototransduction_Stim", 0.0)] :=
  pt_update_states_componentwise Phototransduction.default_params
    Phototransduction.test_state 1 0.0 90.0 0.0 1 1 0.336 0 rfl rfl rfl rfl
    rfl rfl rfl

/-- Strings with equal character lists are equal. -/
theorem string_eq_of_data_eq (s t : String) (h : s.data = t.data) : s = t := by
  cases s
  cases t
  exact congrArg String.mk h

/-- Appending a common suffix is right-cancellative on strings. -/
theorem string_append_right_cancel (a b s : String) (h : a ++ s = b ++ s) :
    a = b := by
  have hd := congrArg String.data h
  rw [String.data_append, String.data_append] at hd
  obtain ⟨h1, -⟩ := List.append_inj' hd rfl
  exact string_eq_of_data_eq _ _ h1

/-- Appends with distinct equal-length suffixes are distinct strings. -/
theorem append_ne_of_ne_suffix (a b : String) {s t : String}
    (hlen : s.length = t.length) (hst : s ≠ t) : a ++ s ≠ b ++ t := by
  intro h
  have hd := congrArg String.data h
  rw [String.data_append, String.data_append] at hd
  have hl : s.data.length = t.data.length := hlen
  obtain ⟨-, h2⟩ := List.append_inj' hd hl
  exact hst (string_eq_of_data_eq _ _ h2)

/-- Every Benison state key is the instance name followed by `"_m"` or
`"_h"`. -/
theorem benison_states_keys_mem {n k : String}
    (h : k ∈ benison_states_keys n) : k = n ++ "_m" ∨ k = n ++ "_h" := by
  simp [benison_states_keys, Leak.channel_states_keys,
    Na.channel_states_keys, Kdr.channel_states_keys,
    CaL.channel_states_keys, CaN.channel_states_keys] at h
  tauto

/-- C4 counterexample: the `Kdr` parameter dictionary contains the bare
key `"vK"`, which does not begin with the (default) instance name
`"Kdr"`: the key's character list does not start with that of the
name. -/
theorem kdr_vk_key_not_prefixed :
    "vK" ∈ Kdr.channel_params_keys "Kdr" ∧
    (("Kdr" : String).data.isPrefixOf ("vK" : String).data) = false :=
  ⟨by decide, by decide⟩

/-- C4 (amended): every state key of every channel begins with the
instance name, and so does every parameter key except the bare reversal
potentials `"vK"` (Kdr) and `"vCa"` (CaL, CaN); consequently two
Benison-channel instances with distinct names share no state key (but
Kdr/CaL/CaN instances do share those reversal-potential parameter
keys). -/
theorem channel_key_namespacing :
    (∀ name : String,
      (∀ k ∈ Leak.channel_states_keys name, ∃ t, k = name ++ t) ∧
      (∀ k ∈ Na.channel_states_keys name, ∃ t, k = name ++ t) ∧
      (∀ k ∈ Kdr.channel_states_keys name, ∃ t, k = name ++ t) ∧
      (∀ k ∈ CaL.channel_states_keys name, ∃ t, k = name ++ t) ∧
      (∀ k ∈ CaN.channel_states_keys name, ∃ t, k = name ++ t) ∧
      (∀ k ∈ Phototransduction.channel_states_keys name, ∃ t, k = name ++ t) ∧
      (∀ k ∈ Leak.channel_params_keys name, ∃ t, k = name ++ t) ∧
      (∀ k ∈ Na.channel_params_keys name, ∃ t, k = name ++ t) ∧
      (∀ k ∈ Phototransduction.channel_params_keys name, ∃ t, k = name ++ t) ∧
      (∀ k ∈ Kdr.channel_params_keys name, k = "vK" ∨ ∃ t, k = name ++ t) ∧
      (∀ k ∈ CaL.channel_params_keys name, k = "vCa" ∨ ∃ t, k = name ++ t) ∧
      (∀ k ∈ CaN.channel_params_keys name, k = "vCa" ∨ ∃ t, k = name ++ t)) ∧
    (∀ n1 n2 : String, n1 ≠ n2 →
      ∀ k, k ∈ benison_states_keys n1 → k ∉ benison_states_keys n2) := by
  constructor
  · intro name
    refine ⟨fun k hk => absurd hk (List.not_mem_nil k), ?_, ?_, ?_, ?_, ?_,
      ?_, ?_, ?_, ?_, ?_, ?_⟩
    · intro k hk
      fin_cases hk <;> exact ⟨_, rfl⟩
    · intro k hk
      fin_cases hk <;> exact ⟨_, rfl⟩
    · intro k hk
      fin_cases hk <;> exact ⟨_, rfl⟩
    · intro k hk
      fin_cases hk <;> exact ⟨_, rfl⟩
    · intro k hk
      fin_cases hk <;> exact ⟨_, rfl⟩
    · intro k hk
      fin_cases hk <;> exact ⟨_, rfl⟩
    · intro k hk
      fin_cases hk <;> exact ⟨_, rfl⟩
    · intro k hk
      fin_cases hk <;> exact ⟨_, rfl⟩
    · intro k hk
      fin_cases hk
      · exact Or.inr ⟨_, rfl⟩
      · exact Or.inl rfl
    · intro k hk
      fin_cases hk
      · exact Or.inr ⟨_, rfl⟩
      · exact Or.inl rfl
    · intro k hk
      fin_cases hk
      · exact Or.inr ⟨_, rfl⟩
      · exact Or.inl rfl
  · intro n1 n2 hne k hk1 hk2
    rcases benison_states_keys_mem hk1 with rfl | rfl <;>
      rcases benison_states_keys_mem hk2 with h | h
    · exact hne (string_append_right_cancel _ _ _ h)
    · exact @append_ne_of_ne_suffix n1 n2 "_m" "_h" (by decide) (by decide) h
    · exact @append_ne_of_ne_suffix n1 n2 "_h" "_m" (by decide) (by decide) h
    · exact hne (string_append_right_cancel _ _ _ h)

/-- Witness for C4 (amended): the `Na` state key `"Na_m"` carries the
instance-name prefix, and the state key `"Kdr_m"` of an instance named
`"Kdr"` is not a state key of an instance named `"Kdr2"`. -/
theorem channel_key_namespacing_witness :
    (∃ t, "Na_m" = "Na" ++ t) ∧ "Kdr_m" ∉ benison_states_keys "Kdr2" :=
  ⟨(channel_key_namespacing.1 "Na").2.1 "Na_m" (by decide),
   channel_key_namespacing.2 "Kdr" "Kdr2" (by decide) "Kdr_m" (by decide)⟩
